import Mathlib

/-!
# pdfinfo with extractbb mode (`xpdf/pdfinfo.cc`)

A shallow embedding of `pdfinfo.cc`: `main`, `printInfoString`, `printInfoDate`
and `printBox`.

* Standard output is the list of output calls the program makes, in order, each
  with its format string and its arguments (`Out`).  The text that `printf`
  renders from a format and its arguments is libc's business and is not modelled.
* `double` values are elements of a linear ordered field `α` (the rationals for
  concrete runs, the reals where `sqrt` is the real square root).
* `int` values are integers, and the two places where an `int` cannot hold the
  value it is given are modelled: `++pg` at `pg = INT_MAX` (`nextPage`) and the
  conversion `(int)(round(x))` (`castInt`).  C leaves both undefined; what the
  platform yields is a field of `Env`.
* The PDF library (`PDFDoc`, `Catalog`, `Page`, `Dict`, `GlobalParams`,
  `UnicodeMap`), `parseArgs` and libc (`mktime`, `strftime`, `asctime`) are
  collaborators: what they answer is a field of `Args` or `Env`.
-/

namespace PdfInfo

/-! ## Output calls -/

/-- A `const char *` handed on: a string literal, or `buf` after
`sprintf(buf, fmt, pg)`. -/
inductive Text where
  | lit (s : String)
  | sprintf (fmt : String) (pg : Int)
deriving DecidableEq, Repr

/-- One variadic argument of a `printf` call. -/
inductive Arg (α : Type) where
  | s (v : Text)
  | d (v : Int)
  | u (v : Nat)
  | f (v : α)
deriving DecidableEq, Repr

/-- One call that writes to standard output. -/
inductive Out (α : Type) where
  | printf (fmt : String) (args : List (Arg α))
  | puts (s : String)
  | fputs (s : String)
  | fputc (c : Char)
  | fwrite (bytes : List Char)
deriving DecidableEq, Repr

/-- One call that writes to standard error. -/
inductive Err where
  | fprintf (fmt : String) (args : List String)
  | printUsage (program otherArgs : String)
  | error (category : String) (pos : Int) (msg : String)
  | memCheck
  | gMemReport
deriving DecidableEq, Repr

/-! ## Collaborator data -/

/-- The rectangle type `PDFRectangle` of the PDF library: the four fields `main`
and `printBox` read. -/
structure PDFRectangle (α : Type) where
  x1 : α
  y1 : α
  x2 : α
  y2 : α
deriving DecidableEq, Repr

/-- Modelled from the spec: the enumeration `BBType` is declared in the library's
`Page.h`, which is not part of the sources.  The five values `main` names, and
`NONE` for any further value (the `default:` arm of the `switch` in `main`). -/
inductive BBType where
  | MEDIA
  | CROP
  | BLEED
  | TRIM
  | ART
  | NONE
deriving DecidableEq, Repr

/-- What `main` reads from a `Page *`. -/
structure Page (α : Type) where
  getMediaBox : PDFRectangle α
  getCropBox : PDFRectangle α
  getBleedBox : PDFRectangle α
  getTrimBox : PDFRectangle α
  getArtBox : PDFRectangle α
  isCropped : Bool
  haveBleedBox : Bool
  haveTrimBox : Bool
  haveArtBox : Bool
  dvipdfmxBB : BBType

/-- A string object of the info dictionary: its bytes as the C string
`getString()->getCString()`, and its code points as
`TextString(getString()).getUnicode()`. -/
structure InfoString where
  cstr : List Char
  unicode : List Nat

/-- The info dictionary: `lookup(key)` when the entry `isString()`. -/
abbrev Dict := String → Option InfoString

/-- The output encoding: `mapUnicode(u, buf, sizeof(buf))` as the bytes it puts
into `buf`. -/
structure UnicodeMap where
  mapUnicode : Nat → List Char

/-- What `doc->getCatalog()->getAcroForm()` is. -/
inductive AcroForm where
  | notDict
  | dict (xfaIsStreamOrArray : Bool)
deriving DecidableEq, Repr

/-- What `main` reads from the opened `PDFDoc`. -/
structure PDFDoc (α : Type) where
  isOk : Bool
  getNumPages : Int
  getPDFVersion : α
  getDocInfo : Option Dict
  structTreeRootIsDict : Bool
  getAcroForm : AcroForm
  isEncrypted : Bool
  okToPrint : Bool
  okToCopy : Bool
  okToChange : Bool
  okToAddNotes : Bool
  getPageCropWidth : Int → α
  getPageCropHeight : Int → α
  getPageRotate : Int → Int
  getPage : Int → Page α
  isLinearized : Bool
  readMetadata : Option String

/-- The calendar record `struct tm`. -/
structure Tm where
  tm_year : Int
  tm_mon : Int
  tm_mday : Int
  tm_hour : Int
  tm_min : Int
  tm_sec : Int
  tm_wday : Int
  tm_yday : Int
  tm_isdst : Int
deriving DecidableEq, Repr

/-- The locals `year, mon, day, hour, min, sec` of `printInfoDate`. -/
structure DateVars where
  year : Int
  mon : Int
  day : Int
  hour : Int
  min : Int
  sec : Int
deriving DecidableEq, Repr

/-- The static variables of `pdfinfo.cc` after `parseArgs`, with `argc` and
`argv[1]`. -/
structure Args where
  ok : Bool
  argc : Int
  fileName : String
  firstPage : Int
  lastPage : Int
  printBoxes : Bool
  extractbbMode : Bool
  printMetadata : Bool
  rawDates : Bool
  textEncName : String
  ownerPassword : String
  userPassword : String
  cfgFileName : String
  printVersion : Bool
  printHelp : Bool

/-- Everything else one run depends on. -/
structure Env (α : Type) where
  /-- the constants of `config.h` -/
  xpdfVersion : String
  xpdfCopyright : String
  /-- `GlobalParams(cfgFileName)`, `setTextEncoding` when a name is given, then
  `getTextEncoding()` -/
  getTextEncoding : String → Option String → Option UnicodeMap
  /-- `new PDFDoc(fileName, ownerPW, userPW)` -/
  openDoc : String → Option String → Option String → PDFDoc α
  /-- `sqrt` of `math.h` -/
  sqrt : α → α
  /-- `mktime`: the normalised record, or `none` for `(time_t)-1` -/
  mktime : Tm → Option Tm
  /-- `strftime(buf, sizeof(buf), "%c", &tm)`: `buf`, or `none` for 0 -/
  strftime : Tm → Option String
  /-- `asctime(localtime(&timer))` -/
  asctimeNow : String
  /-- `gftell(f)` after `gfseek` to the end, when `fopen` succeeds (the cast to
  `Guint` is made in `main`) -/
  fileSize : Option Nat
  /-- initial content of the uninitialised date locals -/
  dateGarbage : DateVars
  /-- initial content of the uninitialised pointer `hiresBB` -/
  hiresBBGarbage : Option (PDFRectangle α)
  /-- the `int` a `double` outside the range of `int` converts to (C leaves the
  conversion undefined; x86-64 gives `INT_MIN`) -/
  castIndefinite : Int
  /-- the `int` that `++pg` leaves in `pg` when `pg` is `INT_MAX` (signed overflow,
  undefined in C; two's complement wrapping gives `INT_MIN`) -/
  incOverflow : Int

/-- The per-page calls of `PDFDoc` and `Catalog` that take a page number. -/
inductive Lookup where
  | getPage
  | getPageCropWidth
  | getPageCropHeight
  | getPageRotate
deriving DecidableEq, Repr

/-- Output calls and page lookups made by a part of `main`, in order. -/
structure Trace (α : Type) where
  out : List (Out α)
  lk : List (Lookup × Int)

/-- What a run of `main` does: its return value, its output calls and the page
numbers it looks up. -/
structure Result (α : Type) where
  exitCode : Int
  stdout : List (Out α)
  stderr : List Err
  lookups : List (Lookup × Int)

/-- Nothing printed, nothing looked up. -/
def Trace.nil {α : Type} : Trace α := ⟨[], []⟩

/-- One part of `main` after another. -/
def Trace.app {α : Type} (s t : Trace α) : Trace α := ⟨s.out ++ t.out, s.lk ++ t.lk⟩

/-- Calls that only print. -/
def Trace.print {α : Type} (o : List (Out α)) : Trace α := ⟨o, []⟩

/-! ## `sscanf(s, "%4d%2d%2d%2d%2d%2d", ...)`

The library function `sscanf`, for formats made of `%<width>d` directives, as
the C standard describes it (`fscanf`, conversion specifier `d`). -/

/-- The white space `isspace` accepts in the C locale. -/
def isspace (c : Char) : Bool :=
  c == ' ' || c == '\t' || c == '\n' || c == '\x0b' || c == '\x0c' || c == '\r'

/-- Value of a run of decimal digits. -/
def digitsValue (ds : List Char) : Nat :=
  ds.foldl (fun acc c => 10 * acc + (c.toNat - 48)) 0

/-- How one `%<width>d` directive ends. -/
inductive Scan where
  | inputFailure
  | matchFailure
  | ok (v : Int) (rest : List Char)
deriving DecidableEq, Repr

/-- One `%<width>d` directive: white space is skipped; then at most `width`
characters are read, an optional sign followed by decimal digits.  End of input
before the item is an input failure, an item without a digit a matching
failure. -/
def scanInt (width : Nat) (s : List Char) : Scan :=
  match s.dropWhile isspace with
  | [] => Scan.inputFailure
  | c :: rest =>
    let signed := c == '-' || c == '+'
    let body := if signed then rest else c :: rest
    let avail := if signed then width - 1 else width
    let ds := (body.take avail).takeWhile Char.isDigit
    if ds.isEmpty then Scan.matchFailure
    else Scan.ok (if c == '-' then -(digitsValue ds : Int) else (digitsValue ds : Int))
      (body.drop ds.length)

/-- The directives of a format in order, as far as they convert: the values
assigned, and whether the scan ended on an input failure. -/
def scanAll : List Nat → List Char → List Int × Bool
  | [], _ => ([], false)
  | w :: ws, s =>
    match scanInt w s with
    | Scan.inputFailure => ([], true)
    | Scan.matchFailure => ([], false)
    | Scan.ok v rest => (v :: (scanAll ws rest).1, (scanAll ws rest).2)

/-- The value `sscanf` returns: the number of assignments, or `EOF` (-1) on an
input failure before the first conversion. -/
def sscanfCount (r : List Int × Bool) : Int :=
  if r.1.isEmpty && r.2 then -1 else (r.1.length : Int)

/-! ## `printInfoString`, `printInfoDate`, `printBox` -/

/-- The function `printInfoString` (lines 377-397). -/
def printInfoString {α : Type} (infoDict : Dict) (key text : String) (uMap : UnicodeMap) :
    List (Out α) :=
  match infoDict key with
  | some obj =>
    [Out.fputs text] ++ obj.unicode.map (fun u => Out.fwrite (uMap.mapUnicode u))
      ++ [Out.fputc '\n']
  | none => []

/-- Lines 409-411: `if (s[0] == 'D' && s[1] == ':') s += 2;`. -/
def skipD (s : List Char) : List Char :=
  match s with
  | 'D' :: ':' :: t => t
  | _ => s

/-- The pointers `&year, &mon, &day, &hour, &min, &sec`, in the order `sscanf`
is given them. -/
def datePointers : List (Int → DateVars → DateVars) :=
  [fun v g => { g with year := v }, fun v g => { g with mon := v },
   fun v g => { g with day := v }, fun v g => { g with hour := v },
   fun v g => { g with min := v }, fun v g => { g with sec := v }]

/-- The locals after `sscanf` has assigned `vals` through the pointers. -/
def assignVars (g : DateVars) (vals : List Int) : DateVars :=
  (datePointers.zip vals).foldl (fun g p => p.1 p.2 g) g

/-- The statements of the `switch (n)` of lines 414-420, labelled `case 1` to
`case 5`; there is no `break`. -/
def switchStmts : List (DateVars → DateVars) :=
  [fun g => { g with mon := 1 }, fun g => { g with day := 1 },
   fun g => { g with hour := 0 }, fun g => { g with min := 0 },
   fun g => { g with sec := 0 }]

/-- The `switch (n)`: control enters at `case n` and runs to the closing brace;
no label matches any other `n`. -/
def runSwitch (n : Int) (g : DateVars) : DateVars :=
  if 1 ≤ n ∧ n ≤ 5 then (switchStmts.drop (n.toNat - 1)).foldl (fun g st => st g) g else g

/-- Lines 421-429: the record filled from the locals. -/
def tmOfVars (g : DateVars) : Tm :=
  { tm_year := g.year - 1900, tm_mon := g.mon - 1, tm_mday := g.day, tm_hour := g.hour,
    tm_min := g.min, tm_sec := g.sec, tm_wday := -1, tm_yday := -1, tm_isdst := -1 }

/-- Lines 408-429 of `printInfoDate`: the record handed to `mktime`, when `sscanf`
returns at least 1. -/
def dateTm (garbage : DateVars) (cstr : List Char) : Option Tm :=
  let r := scanAll [4, 2, 2, 2, 2, 2] (skipD cstr)
  let n := sscanfCount r
  if n ≥ 1 then some (tmOfVars (runSwitch n (assignVars garbage r.1))) else none

/-- A date string from which `%4d` converts nothing: after the optional `D:` and
any white space the text is at its end, or starts with a sign that no decimal
digit follows, or with a character that is neither a sign nor a decimal digit. -/
def noYear (cstr : List Char) : Prop :=
  match (skipD cstr).dropWhile isspace with
  | [] => True
  | c :: rest =>
    if c = '-' ∨ c = '+' then ∀ c2 ∈ rest.head?, c2.isDigit = false else c.isDigit = false

instance noYear.instDecidable (cstr : List Char) : Decidable (noYear cstr) := by
  unfold noYear
  split <;> infer_instance

/-- Lines 430-436 of `printInfoDate`: the record `tmStruct` is handed to `mktime`,
the normalised record to `strftime`, and `buf` is printed; when either fails,
`s` is printed. -/
def printNormalised {α : Type} (e : Env α) (tmStruct : Tm) (s : List Char) : List (Out α) :=
  match e.mktime tmStruct with
  | some tmNorm =>
    match e.strftime tmNorm with
    | some buf => [Out.fputs buf]
    | none => [Out.fputs (String.mk s)]
  | none => [Out.fputs (String.mk s)]

/-- The function `printInfoDate` (lines 399-443). -/
def printInfoDate {α : Type} (e : Env α) (infoDict : Dict) (key text : String) :
    List (Out α) :=
  match infoDict key with
  | some obj =>
    let s := skipD obj.cstr
    [Out.fputs text] ++
      (match dateTm e.dateGarbage obj.cstr with
       | some tmStruct => printNormalised e tmStruct s
       | none => [Out.fputs (String.mk s)])
      ++ [Out.fputc '\n']
  | none => []

/-- The function `printBox` (lines 445-455). -/
def printBox {α : Type} (text : Text) (box : PDFRectangle α) (explicitBox dvipdfmxBB : Bool) :
    List (Out α) :=
  [Out.printf "%s%8.2f %8.2f %8.2f %8.2f"
      [Arg.s text, Arg.f box.x1, Arg.f box.y1, Arg.f box.x2, Arg.f box.y2]]
    ++ (if !explicitBox then [Out.printf "   [Implicit]" []] else [])
    ++ (if dvipdfmxBB then [Out.printf "   [dvipdfmx BB]" []] else [])
    ++ [Out.printf "\n" []]

/-! ## `main` -/

section Main

/-- The function `round` of `math.h` on a finite value: the nearest integer,
halfway cases away from zero. -/
def cRound {α : Type} [LinearOrderedField α] [FloorRing α] (x : α) : Int :=
  if 0 ≤ x then ⌊x + 1 / 2⌋ else ⌈x - 1 / 2⌉

/-- The values an `int` (32 bits, two's complement) holds. -/
def fitsInt (z : Int) : Prop := -2147483648 ≤ z ∧ z ≤ 2147483647

instance fitsInt.instDecidable (z : Int) : Decidable (fitsInt z) := by
  unfold fitsInt; infer_instance

/-- The conversion `(int)` of an integral `double`: the value itself when an
`int` holds it, otherwise whatever the platform yields. -/
def castInt (indefinite : Int) (z : Int) : Int :=
  if fitsInt z then z else indefinite

/-- The text of the separator `puts` prints in the box report (lines 308, 321). -/
def separatorRule : String :=
  "------------------------------------------------------------------------"

/-- Lines 279-280: the test for the letter format. -/
def letterTest {α : Type} [LinearOrderedField α] (w h : α) : Prop :=
  (|w - 612| < 1 / 10 ∧ |h - 792| < 1 / 10) ∨ (|w - 792| < 1 / 10 ∧ |h - 612| < 1 / 10)

instance letterTest.instDecidable {α : Type} [LinearOrderedField α]
    (w h : α) : Decidable (letterTest w h) := by
  unfold letterTest; infer_instance

/-- Lines 286-287: the test against one reference size. -/
def isoTest {α : Type} [LinearOrderedField α] (w h hISO wISO : α) : Prop :=
  (|w - wISO| < 1 ∧ |h - hISO| < 1) ∨ (|w - hISO| < 1 ∧ |h - wISO| < 1)

instance isoTest.instDecidable {α : Type} [LinearOrderedField α]
    (w h hISO wISO : α) : Decidable (isoTest w h hISO wISO) := by
  unfold isoTest; infer_instance

/-- Lines 285-293: the loop `for (i = 0; i <= 6; ++i)` from the state
`(i, hISO, wISO)`; the first argument bounds the number of iterations. -/
def isoLoop {α : Type} [LinearOrderedField α]
    (sqrt : α → α) (w h : α) : Nat → Int → α → α → List (Out α)
  | 0, _, _, _ => []
  | fuel + 1, i, hISO, wISO =>
    if i ≤ 6 then
      if isoTest w h hISO wISO then [Out.printf " (A%d)" [Arg.d i]]
      else isoLoop sqrt w h fuel (i + 1) wISO (wISO / sqrt 2)
    else []

/-- Lines 283-284 and 291-292: the reference size `(hISO, wISO)` at the start of
iteration `i` of the loop. -/
def isoRef {α : Type} [LinearOrderedField α] (sqrt : α → α) : Nat → α × α
  | 0 => (sqrt (sqrt 2) * 7200 / (254 / 100), sqrt (sqrt 2) * 7200 / (254 / 100) / sqrt 2)
  | i + 1 => ((isoRef sqrt i).2, (isoRef sqrt i).2 / sqrt 2)

/-- The test of iteration `i` of the loop (the one that prints `(A<i>)`). -/
def isoTestAt {α : Type} [LinearOrderedField α] (sqrt : α → α) (i : Nat) (w h : α) : Prop :=
  isoTest w h (isoRef sqrt i).1 (isoRef sqrt i).2

/-- Lines 279-294: what is printed after the page size. -/
def sizeAnnot {α : Type} [LinearOrderedField α] (sqrt : α → α) (w h : α) : List (Out α) :=
  if letterTest w h then [Out.printf " (letter)" []]
  else
    let hISO := sqrt (sqrt 2) * 7200 / (254 / 100)
    let wISO := hISO / sqrt 2
    isoLoop sqrt w h 7 0 hISO wISO

/-- The step `++pg` of a page loop, taken after the body, hence with
`pg <= lastPage`: `pg + 1`, except at `pg = INT_MAX`, where the `int` overflows
and `pg` is left with `overflow`.  The variables being `int`, `lastPage` is at
most `INT_MAX`; integers of the model beyond that are no values of the program,
and for them the step is `pg + 1`. -/
def nextPage (overflow lastPage pg : Int) : Int :=
  if pg = 2147483647 ∧ lastPage ≤ 2147483647 then overflow else pg + 1

/-- A loop `for (pg = firstPage; pg <= lastPage; ++pg) body`, from the value `pg`;
the first argument bounds the number of iterations. -/
def forPages {α : Type} (body : Int → Trace α) (overflow lastPage : Int) :
    Nat → Int → Trace α
  | 0, _ => Trace.nil
  | fuel + 1, pg =>
    if pg ≤ lastPage then
      (body pg).app (forPages body overflow lastPage fuel (nextPage overflow lastPage pg))
    else Trace.nil

/-- The number of pages from `firstPage` to `lastPage`. -/
def loopCount (firstPage lastPage : Int) : Nat := (lastPage + 1 - firstPage).toNat

/-- The loop `for (pg = firstPage; pg <= lastPage; ++pg) body` of `main`, followed
for one iteration more than there are pages from `firstPage` to `lastPage`.  With
`lastPage < INT_MAX` that is where `pg <= lastPage` fails and the loop is left
(`forPages_fuel`).  With `lastPage = INT_MAX` the test never fails: after page
`INT_MAX` the step overflows, and the last iteration followed is the one the
loop goes on with. -/
def pageLoop {α : Type} (body : Int → Trace α) (overflow firstPage lastPage : Int) : Trace α :=
  forPages body overflow lastPage (loopCount firstPage lastPage + 1) firstPage

/-- Lines 181-199: the `switch (dvipdfmxBB)`; the `default:` arm leaves `hiresBB`
as it was. -/
def selectBB {α : Type}
    (page : Page α) (garbage : Option (PDFRectangle α)) : Option (PDFRectangle α) :=
  match page.dvipdfmxBB with
  | BBType.MEDIA => some page.getMediaBox
  | BBType.CROP => some page.getCropBox
  | BBType.BLEED => some page.getBleedBox
  | BBType.TRIM => some page.getTrimBox
  | BBType.ART => some page.getArtBox
  | BBType.NONE => garbage

/-- Lines 201-208: the two bounding box lines. -/
def printBB {α : Type} [LinearOrderedField α] [FloorRing α]
    (e : Env α) (hiresBB : Option (PDFRectangle α)) : List (Out α) :=
  match hiresBB with
  | some r =>
    [Out.printf "%%%%BoundingBox: %d %d %d %d\n"
        [Arg.d (castInt e.castIndefinite (cRound r.x1)),
         Arg.d (castInt e.castIndefinite (cRound r.y1)),
         Arg.d (castInt e.castIndefinite (cRound r.x2)),
         Arg.d (castInt e.castIndefinite (cRound r.y2))],
     Out.printf "%%%%HiResBoundingBox: %8.6f %8.6f %8.6f %8.6f\n"
        [Arg.f r.x1, Arg.f r.y1, Arg.f r.x2, Arg.f r.y2]]
  | none => []

/-- Lines 174-215: extractbb mode once the page range is accepted. -/
def extractbb {α : Type} [LinearOrderedField α] [FloorRing α]
    (a : Args) (e : Env α) (doc : PDFDoc α) (firstPage : Int) : Trace α :=
  let page := doc.getPage firstPage
  { out :=
      [Out.printf "%%%%Title: %s\n" [Arg.s (Text.lit a.fileName)],
       Out.printf "%%%%Creator: pdfinfo version %s\n" [Arg.s (Text.lit e.xpdfVersion)]]
      ++ printBB e (selectBB page e.hiresBBGarbage)
      ++ [Out.printf "%%%%PDFVersion: %.1f\n" [Arg.f doc.getPDFVersion],
          Out.printf "%%%%Pages: %d\n" [Arg.d doc.getNumPages],
          Out.printf "%%%%CreationDate: %s\n" [Arg.s (Text.lit e.asctimeNow)]],
    lk := [(Lookup.getPage, firstPage)] }

/-- Lines 218-236: the info dictionary. -/
def printDocInfo {α : Type}
    (a : Args) (e : Env α) (uMap : UnicodeMap) (doc : PDFDoc α) : List (Out α) :=
  match doc.getDocInfo with
  | some info =>
    printInfoString info "Title" "Title:          " uMap
    ++ printInfoString info "Subject" "Subject:        " uMap
    ++ printInfoString info "Keywords" "Keywords:       " uMap
    ++ printInfoString info "Author" "Author:         " uMap
    ++ printInfoString info "Creator" "Creator:        " uMap
    ++ printInfoString info "Producer" "Producer:       " uMap
    ++ (if a.rawDates then
          printInfoString info "CreationDate" "CreationDate:   " uMap
          ++ printInfoString info "ModDate" "ModDate:        " uMap
        else
          printInfoDate e info "CreationDate" "CreationDate:   "
          ++ printInfoDate e info "ModDate" "ModDate:        ")
  | none => []

/-- The C expression `b ? "yes" : "no"`. -/
def yesNo (b : Bool) : String := if b then "yes" else "no"

/-- Lines 238-268: tagging, form, page count and encryption. -/
def printDocFlags {α : Type} (doc : PDFDoc α) : List (Out α) :=
  [Out.printf "Tagged:         %s\n" [Arg.s (Text.lit (yesNo doc.structTreeRootIsDict))]]
  ++ (match doc.getAcroForm with
      | AcroForm.dict xfa =>
        if xfa then [Out.printf "Form:           XFA\n" []]
        else [Out.printf "Form:           AcroForm\n" []]
      | AcroForm.notDict => [Out.printf "Form:           none\n" []])
  ++ [Out.printf "Pages:          %d\n" [Arg.d doc.getNumPages],
      Out.printf "Encrypted:      " []]
  ++ (if doc.isEncrypted then
        [Out.printf "yes (print:%s copy:%s change:%s addNotes:%s)\n"
          [Arg.s (Text.lit (yesNo doc.okToPrint)), Arg.s (Text.lit (yesNo doc.okToCopy)),
           Arg.s (Text.lit (yesNo doc.okToChange)), Arg.s (Text.lit (yesNo doc.okToAddNotes))]]
      else [Out.printf "no\n" []])

/-- Lines 272-296: the body of the page size loop. -/
def pageSizeBody {α : Type} [LinearOrderedField α]
    (e : Env α) (doc : PDFDoc α) (multiPage : Bool) (pg : Int) : Trace α :=
  let w := doc.getPageCropWidth pg
  let h := doc.getPageCropHeight pg
  { out :=
      [if multiPage then Out.printf "Page %4d size: %g x %g pts" [Arg.d pg, Arg.f w, Arg.f h]
       else Out.printf "Page size:      %g x %g pts" [Arg.f w, Arg.f h]]
      ++ sizeAnnot e.sqrt w h
      ++ [Out.printf " (rotated %d degrees)" [Arg.d (doc.getPageRotate pg)],
          Out.printf "\n" []],
    lk := [(Lookup.getPageCropWidth, pg), (Lookup.getPageCropHeight, pg),
           (Lookup.getPageRotate, pg)] }

/-- Lines 311-320: the five `printBox` calls for page `pg` of the loop, one
entry per call. -/
def pageBoxLines {α : Type} (pg : Int) (page : Page α) : List (List (Out α)) :=
  [printBox (Text.sprintf "Page %4d MediaBox: " pg) page.getMediaBox true
      (page.dvipdfmxBB == BBType.MEDIA),
   printBox (Text.sprintf "Page %4d CropBox:  " pg) page.getCropBox page.isCropped
      (page.dvipdfmxBB == BBType.CROP),
   printBox (Text.sprintf "Page %4d BleedBox: " pg) page.getBleedBox page.haveBleedBox
      (page.dvipdfmxBB == BBType.BLEED),
   printBox (Text.sprintf "Page %4d TrimBox:  " pg) page.getTrimBox page.haveTrimBox
      (page.dvipdfmxBB == BBType.TRIM),
   printBox (Text.sprintf "Page %4d ArtBox:   " pg) page.getArtBox page.haveArtBox
      (page.dvipdfmxBB == BBType.ART)]

/-- Lines 310-321: the body of the box loop. -/
def boxBody {α : Type} (doc : PDFDoc α) (pg : Int) : Trace α :=
  { out := (pageBoxLines pg (doc.getPage pg)).flatten ++ [Out.puts separatorRule],
    lk := [(Lookup.getPage, pg)] }

/-- Lines 324-329: the box lines of the branch without page numbers. -/
def singleBoxLines {α : Type} (page : Page α) : List (List (Out α)) :=
  [printBox (Text.lit "MediaBox:       ") page.getMediaBox true
      (page.dvipdfmxBB == BBType.MEDIA),
   printBox (Text.lit "CropBox:        ") page.getCropBox page.isCropped
      (page.dvipdfmxBB == BBType.CROP),
   printBox (Text.lit "BleedBox:       ") page.getBleedBox page.haveBleedBox
      (page.dvipdfmxBB == BBType.BLEED),
   printBox (Text.lit "TrimBox:        ") page.getTrimBox page.haveTrimBox
      (page.dvipdfmxBB == BBType.TRIM),
   printBox (Text.lit "ArtBox:         ") page.getArtBox page.haveArtBox
      (page.dvipdfmxBB == BBType.ART)]

/-- Lines 299-331: the box report.  `printBoxes` is set just before it is
tested, and a range with `multiPage` false is replaced by the whole document
with `multiPage` true. -/
def printTheBoxes {α : Type}
    (overflow : Int) (doc : PDFDoc α) (firstPage lastPage : Int) (multiPage : Bool) : Trace α :=
  let printBoxes := true
  if printBoxes then
    let firstPage1 := if !multiPage then 1 else firstPage
    let lastPage1 := if !multiPage then doc.getNumPages else lastPage
    let multiPage1 := if !multiPage then true else multiPage
    if multiPage1 then
      (Trace.print [Out.puts separatorRule]).app
        (pageLoop (boxBody doc) overflow firstPage1 lastPage1)
    else
      { out := (singleBoxLines (doc.getPage firstPage1)).flatten,
        lk := [(Lookup.getPage, firstPage1)] }
  else Trace.nil

/-- Lines 333-357: file size, linearisation, version and metadata. -/
def printDocTail {α : Type} (a : Args) (e : Env α) (doc : PDFDoc α) : List (Out α) :=
  (match e.fileSize with
   | some n => [Out.printf "File size:      %u bytes\n" [Arg.u (n % 4294967296)]]
   | none => [])
  ++ [Out.printf "Optimized:      %s\n" [Arg.s (Text.lit (yesNo doc.isLinearized))],
      Out.printf "PDF version:    %.1f\n" [Arg.f doc.getPDFVersion]]
  ++ (if a.printMetadata then
        match doc.readMetadata with
        | some metadata => [Out.fputs "Metadata:\n", Out.fputs metadata, Out.fputc '\n']
        | none => []
      else [])

/-- Lines 217-357: default mode. -/
def report {α : Type} [LinearOrderedField α]
    (a : Args) (e : Env α) (uMap : UnicodeMap) (doc : PDFDoc α)
    (firstPage lastPage : Int) (multiPage : Bool) : Trace α :=
  (Trace.print (printDocInfo a e uMap doc ++ printDocFlags doc)).app
    ((pageLoop (pageSizeBody e doc multiPage) e.incOverflow firstPage lastPage).app
      ((printTheBoxes e.incOverflow doc firstPage lastPage multiPage).app
        (Trace.print (printDocTail a e doc))))

/-- Lines 370-372: the two reports written to `stderr` on every path. -/
def memReports : List Err := [Err.memCheck, Err.gMemReport]

/-- Lines 120-125: `globalParams->getTextEncoding()` after the optional
`setTextEncoding(textEncName)`. -/
def resolveEncoding {α : Type} (a : Args) (e : Env α) : Option UnicodeMap :=
  e.getTextEncoding a.cfgFileName (if a.textEncName.isEmpty then none else some a.textEncName)

/-- Lines 132-141: a password is passed unless its buffer still starts with the
byte `\001`. -/
def passwordArg (pw : String) : Option String :=
  if pw.data.head? = some '\x01' then none else some pw

/-- Line 142: `new PDFDoc(fileName, ownerPW, userPW)`. -/
def loadDoc {α : Type} (a : Args) (e : Env α) : PDFDoc α :=
  e.openDoc a.fileName (passwordArg a.ownerPassword) (passwordArg a.userPassword)

/-- Lines 155-157: the first page after `if (firstPage < 1) firstPage = 1`. -/
def normFirst (a : Args) : Int := if a.firstPage < 1 then 1 else a.firstPage

/-- Lines 158-163: the flag `multiPage`. -/
def normMulti (a : Args) : Bool := if a.lastPage = 0 then false else true

/-- Lines 158-166: the last page after both `if` statements. -/
def normLast (a : Args) (numPages : Int) : Int :=
  let lastPage := if a.lastPage = 0 then 1 else a.lastPage
  if lastPage < 1 ∨ lastPage > numPages then numPages else lastPage

/-- The function `main` (lines 87-375). -/
def main {α : Type} [LinearOrderedField α] [FloorRing α] (a : Args) (e : Env α) : Result α :=
  let exitCode : Int := 99
  if !a.ok || a.argc != 2 || a.printVersion || a.printHelp then
    { exitCode := exitCode, stdout := [],
      stderr :=
        [Err.fprintf "pdfinfo version %s\n" [e.xpdfVersion],
         Err.fprintf "%s\n" [e.xpdfCopyright]]
        ++ (if !a.printVersion then [Err.printUsage "pdfinfo" "<PDF-file>"] else [])
        ++ memReports,
      lookups := [] }
  else
    match resolveEncoding a e with
    | none =>
      { exitCode := exitCode, stdout := [],
        stderr := [Err.error "errConfig" (-1) "Couldn't get text encoding"] ++ memReports,
        lookups := [] }
    | some uMap =>
      let doc := loadDoc a e
      if !doc.isOk then
        { exitCode := 1, stdout := [], stderr := memReports, lookups := [] }
      else
        let firstPage := normFirst a
        let multiPage := normMulti a
        let lastPage := normLast a doc.getNumPages
        if a.extractbbMode then
          if firstPage > doc.getNumPages then
            { exitCode := 1, stdout := [], stderr := memReports, lookups := [] }
          else
            let t := extractbb a e doc firstPage
            { exitCode := 0, stdout := t.out, stderr := memReports, lookups := t.lk }
        else
          let t := report a e uMap doc firstPage lastPage multiPage
          { exitCode := 0, stdout := t.out, stderr := memReports, lookups := t.lk }

end Main

/-! ## Concrete runs -/

/-- A page with an explicit crop box, no other explicit box, and the hint
`CROP`. -/
def samplePage : Page ℚ :=
  { getMediaBox := ⟨0, 0, 612, 792⟩, getCropBox := ⟨21 / 2, 41 / 4, 1201 / 2, 3123 / 4⟩,
    getBleedBox := ⟨21 / 2, 41 / 4, 1201 / 2, 3123 / 4⟩,
    getTrimBox := ⟨21 / 2, 41 / 4, 1201 / 2, 3123 / 4⟩,
    getArtBox := ⟨21 / 2, 41 / 4, 1201 / 2, 3123 / 4⟩,
    isCropped := true, haveBleedBox := false, haveTrimBox := false, haveArtBox := false,
    dvipdfmxBB := BBType.CROP }

/-- A page whose crop box reaches past the range of `int`. -/
def widePage : Page ℚ :=
  { samplePage with getCropBox := ⟨0, 0, 3000000000, 792⟩ }

/-- An unencrypted document of `n` pages, every page being `page`. -/
def sampleDoc (n : Int) (page : Page ℚ) : PDFDoc ℚ :=
  { isOk := true, getNumPages := n, getPDFVersion := 3 / 2, getDocInfo := none,
    structTreeRootIsDict := false, getAcroForm := AcroForm.notDict, isEncrypted := false,
    okToPrint := true, okToCopy := true, okToChange := true, okToAddNotes := true,
    getPageCropWidth := fun _ => 590, getPageCropHeight := fun _ => 1541 / 2,
    getPageRotate := fun _ => 0, getPage := fun _ => page, isLinearized := false,
    readMetadata := none }

/-- An environment in which the encoding resolves and every file opens as
`doc`; its `sqrt` is right to four decimals at 2 and at `sqrt 2`, the two
arguments `main` has. -/
def sampleEnv (doc : PDFDoc ℚ) : Env ℚ :=
  { xpdfVersion := "3.04", xpdfCopyright := "Copyright 1996-2014 Glyph & Cog, LLC",
    getTextEncoding := fun _ _ => some ⟨fun u => [Char.ofNat u]⟩,
    openDoc := fun _ _ _ => doc,
    sqrt := fun x => if x = 2 then 14142 / 10000 else 11892 / 10000,
    mktime := fun t => some t, strftime := fun _ => some "Wed Jan  1 00:00:00 2020",
    asctimeNow := "Thu Jan  1 00:00:00 1970\n", fileSize := some 1024,
    dateGarbage := ⟨7, 7, 7, 7, 7, 7⟩, hiresBBGarbage := none,
    castIndefinite := -2147483648, incOverflow := -2147483648 }

/-- The environment `sampleEnv doc` without a resolvable text encoding. -/
def noEncodingEnv (doc : PDFDoc ℚ) : Env ℚ :=
  { sampleEnv doc with getTextEncoding := fun _ _ => none }

/-- The command line `pdfinfo [-extractbb] -f <firstPage> -l <lastPage> a.pdf`. -/
def sampleArgs (extractbbMode : Bool) (firstPage lastPage : Int) : Args :=
  { ok := true, argc := 2, fileName := "a.pdf", firstPage := firstPage, lastPage := lastPage,
    printBoxes := false, extractbbMode := extractbbMode, printMetadata := false,
    rawDates := false, textEncName := "", ownerPassword := "\x01", userPassword := "\x01",
    cfgFileName := "", printVersion := false, printHelp := false }

/-- An info dictionary with the one entry `CreationDate`. -/
def sampleDict (value : String) : Dict :=
  fun key => if key = "CreationDate" then some ⟨value.toList, []⟩ else none

/-! ## Exit codes and the page range -/

section Theorems

/-- The run of `main` once the arguments are accepted (line 108 is false). -/
theorem main_of_accepted {α : Type} [LinearOrderedField α] [FloorRing α]
    (a : Args) (e : Env α) (hok : a.ok = true) (hargc : a.argc = 2)
    (hv : a.printVersion = false) (hh : a.printHelp = false) :
    main a e =
      match resolveEncoding a e with
      | none =>
        { exitCode := 99, stdout := [],
          stderr := [Err.error "errConfig" (-1) "Couldn't get text encoding"] ++ memReports,
          lookups := [] }
      | some uMap =>
        if !(loadDoc a e).isOk then
          { exitCode := 1, stdout := [], stderr := memReports, lookups := [] }
        else if a.extractbbMode then
          if normFirst a > (loadDoc a e).getNumPages then
            { exitCode := 1, stdout := [], stderr := memReports, lookups := [] }
          else
            { exitCode := 0, stdout := (extractbb a e (loadDoc a e) (normFirst a)).out,
              stderr := memReports, lookups := (extractbb a e (loadDoc a e) (normFirst a)).lk }
        else
          { exitCode := 0,
            stdout := (report a e uMap (loadDoc a e) (normFirst a)
              (normLast a (loadDoc a e).getNumPages) (normMulti a)).out,
            stderr := memReports,
            lookups := (report a e uMap (loadDoc a e) (normFirst a)
              (normLast a (loadDoc a e).getNumPages) (normMulti a)).lk } := by
  simp [main, hok, hargc, hv, hh]

/-- The run of `main` when line 108 is true: usage or version on `stderr`, and
the initial `exitCode`. -/
theorem main_of_rejected {α : Type} [LinearOrderedField α] [FloorRing α] (a : Args) (e : Env α)
    (h : a.ok = false ∨ a.argc ≠ 2 ∨ a.printVersion = true ∨ a.printHelp = true) :
    (main a e).exitCode = 99 ∧ (main a e).stdout = [] ∧ (main a e).lookups = [] := by
  have hc : (!a.ok || a.argc != 2 || a.printVersion || a.printHelp) = true := by
    rcases h with h | h | h | h <;> simp [h]
  simp only [main, hc, if_true, and_self]

/-- C1 (as amended): when the arguments are accepted and the text encoding cannot be
resolved, `main` returns 99, the value `exitCode` was given before the
arguments were parsed, and prints nothing on standard output; this is the very
exit code of a run whose arguments are rejected or that asks for help or the
version. -/
theorem main_encoding_failure_exit {α : Type} [LinearOrderedField α] [FloorRing α]
    (a : Args) (e : Env α) (hok : a.ok = true)
    (hargc : a.argc = 2) (hv : a.printVersion = false) (hh : a.printHelp = false)
    (henc : resolveEncoding a e = none) :
    (main a e).exitCode = 99 ∧ (main a e).stdout = [] ∧
      ∀ (b : Args) (e1 : Env α),
        (b.ok = false ∨ b.argc ≠ 2 ∨ b.printVersion = true ∨ b.printHelp = true) →
        (main b e1).exitCode = (main a e).exitCode := by
  have h := main_of_accepted a e hok hargc hv hh
  rw [henc] at h
  refine ⟨by rw [h], by rw [h], ?_⟩
  intro b e1 hb
  rw [(main_of_rejected b e1 hb).1, h]

/-- The run `pdfinfo a.pdf` where no text encoding resolves. -/
theorem main_encoding_failure_exit_witness :
    (sampleArgs false 1 0).ok = true ∧ (sampleArgs false 1 0).argc = 2 ∧
      resolveEncoding (sampleArgs false 1 0) (noEncodingEnv (sampleDoc 2 samplePage)) = none ∧
      (main (sampleArgs false 1 0) (noEncodingEnv (sampleDoc 2 samplePage))).exitCode = 99 :=
  ⟨rfl, rfl, rfl,
    (main_encoding_failure_exit (sampleArgs false 1 0) (noEncodingEnv (sampleDoc 2 samplePage))
      rfl rfl rfl rfl rfl).1⟩

/-- C1 (as stated) fails: with accepted arguments and no resolvable text
encoding the exit code is 99, not 2. -/
theorem main_encoding_failure_not_two :
    (sampleArgs false 1 0).ok = true ∧ (sampleArgs false 1 0).argc = 2 ∧
      (sampleArgs false 1 0).printVersion = false ∧ (sampleArgs false 1 0).printHelp = false ∧
      resolveEncoding (sampleArgs false 1 0) (noEncodingEnv (sampleDoc 2 samplePage)) = none ∧
      (main (sampleArgs false 1 0) (noEncodingEnv (sampleDoc 2 samplePage))).exitCode = 99 ∧
      (main (sampleArgs false 1 0) (noEncodingEnv (sampleDoc 2 samplePage))).exitCode ≠ 2 := by
  refine ⟨rfl, rfl, rfl, rfl, rfl, ?_, ?_⟩ <;> simp [main, sampleArgs, resolveEncoding, noEncodingEnv]

/-- C2: in extractbb mode, with the document opened, a first page (raised to at
least 1) beyond the page count makes `main` return 1 with no output call on
standard output at all. -/
theorem extractbb_out_of_range {α : Type} [LinearOrderedField α] [FloorRing α]
    (a : Args) (e : Env α) (uMap : UnicodeMap) (hok : a.ok = true)
    (hargc : a.argc = 2) (hv : a.printVersion = false) (hh : a.printHelp = false)
    (henc : resolveEncoding a e = some uMap) (hdoc : (loadDoc a e).isOk = true)
    (hmode : a.extractbbMode = true)
    (hrange : max a.firstPage 1 > (loadDoc a e).getNumPages) :
    (main a e).exitCode = 1 ∧ (main a e).stdout = [] := by
  have h := main_of_accepted a e hok hargc hv hh
  have hf : normFirst a = max a.firstPage 1 := by
    unfold normFirst
    split_ifs with h1
    · exact (max_eq_right (by omega)).symm
    · exact (max_eq_left (by omega)).symm
  rw [henc] at h
  simp only [hdoc, hmode, hf, hrange, if_true, Bool.not_true, Bool.false_eq_true, if_false] at h
  rw [h]
  exact ⟨rfl, rfl⟩

/-- The run `pdfinfo -extractbb -f 3 a.pdf` on a two-page document. -/
theorem extractbb_out_of_range_witness :
    max (sampleArgs true 3 0).firstPage 1 >
        (loadDoc (sampleArgs true 3 0) (sampleEnv (sampleDoc 2 samplePage))).getNumPages ∧
      (main (sampleArgs true 3 0) (sampleEnv (sampleDoc 2 samplePage))).exitCode = 1 ∧
      (main (sampleArgs true 3 0) (sampleEnv (sampleDoc 2 samplePage))).stdout = [] :=
  ⟨by decide,
    extractbb_out_of_range (sampleArgs true 3 0) (sampleEnv (sampleDoc 2 samplePage))
      ⟨fun u => [Char.ofNat u]⟩ rfl rfl rfl rfl rfl rfl rfl (by decide)⟩

theorem normFirst_pos (a : Args) : 1 ≤ normFirst a := by
  unfold normFirst
  split_ifs <;> omega

theorem normLast_le (a : Args) (n : Int) : normLast a n ≤ n := by
  simp only [normLast]
  split_ifs <;> omega

theorem nextPage_of_bound (overflow lastPage pg : Int) (hl : lastPage < 2147483647)
    (h : pg ≤ lastPage) : nextPage overflow lastPage pg = pg + 1 := by
  unfold nextPage
  rw [if_neg]
  omega

/-- With `lastPage < INT_MAX`, more fuel than `loopCount` changes nothing: the
loop ends because `pg <= lastPage` fails. -/
theorem forPages_fuel {α : Type} (body : Int → Trace α) (overflow lastPage : Int)
    (hl : lastPage < 2147483647) :
    ∀ (fuel : Nat) (pg : Int), loopCount pg lastPage ≤ fuel →
      forPages body overflow lastPage fuel pg =
        forPages body overflow lastPage (loopCount pg lastPage) pg := by
  intro fuel
  induction fuel with
  | zero =>
    intro pg h
    rw [Nat.le_zero.mp h]
  | succ k ih =>
    intro pg h
    by_cases hpg : pg ≤ lastPage
    · have hc : loopCount pg lastPage = loopCount (pg + 1) lastPage + 1 := by
        unfold loopCount; omega
      rw [hc]
      simp only [forPages, hpg, if_true, nextPage_of_bound overflow lastPage pg hl hpg]
      rw [ih (pg + 1) (by omega)]
    · have hc : loopCount pg lastPage = 0 := by
        unfold loopCount; omega
      rw [hc]
      simp [forPages, hpg]

theorem forPages_lk_bounds {α : Type} (body : Int → Trace α) (overflow lastPage : Int)
    (hl : lastPage < 2147483647) (hbody : ∀ k, ∀ p ∈ (body k).lk, p.2 = k) :
    ∀ (fuel : Nat) (pg : Int), ∀ p ∈ (forPages body overflow lastPage fuel pg).lk,
      pg ≤ p.2 ∧ p.2 ≤ lastPage := by
  intro fuel
  induction fuel with
  | zero =>
    intro pg p hp
    simp [forPages, Trace.nil] at hp
  | succ k ih =>
    intro pg p hp
    by_cases hpg : pg ≤ lastPage
    · simp only [forPages, hpg, if_true, Trace.app, List.mem_append,
        nextPage_of_bound overflow lastPage pg hl hpg] at hp
      rcases hp with hp | hp
      · rw [hbody pg p hp]
        exact ⟨le_refl _, hpg⟩
      · have := ih (pg + 1) p hp
        omega
    · simp [forPages, hpg, Trace.nil] at hp

theorem pageSizeBody_lk {α : Type} [LinearOrderedField α]
    (e : Env α) (doc : PDFDoc α) (multiPage : Bool) (k : Int) :
    ∀ p ∈ (pageSizeBody e doc multiPage k).lk, p.2 = k := by
  intro p hp
  simp only [pageSizeBody, List.mem_cons, List.mem_singleton, List.not_mem_nil, or_false] at hp
  rcases hp with hp | hp | hp <;> rw [hp]

theorem boxBody_lk {α : Type} (doc : PDFDoc α) (k : Int) :
    ∀ p ∈ (boxBody doc k).lk, p.2 = k := by
  intro p hp
  simp only [boxBody, List.mem_singleton] at hp
  rw [hp]

theorem printTheBoxes_eq {α : Type} (overflow : Int) (doc : PDFDoc α)
    (firstPage lastPage : Int) (multiPage : Bool) :
    printTheBoxes overflow doc firstPage lastPage multiPage =
      (Trace.print [Out.puts separatorRule]).app
        (pageLoop (boxBody doc) overflow (if multiPage then firstPage else 1)
          (if multiPage then lastPage else doc.getNumPages)) := by
  cases multiPage <;> simp [printTheBoxes]

/-- C3 (as amended): for every document whose page count is below `INT_MAX`
(2147483647), every page number `main` hands to `getCatalog()->getPage`,
`getPageCropWidth`, `getPageCropHeight` or `getPageRotate` lies between 1 and the
page count, whatever `-f` and `-l` are, in extractbb mode and in default mode. -/
theorem main_lookups_in_range {α : Type} [LinearOrderedField α] [FloorRing α]
    (a : Args) (e : Env α) (hN : (loadDoc a e).getNumPages < 2147483647) :
    ∀ p ∈ (main a e).lookups, 1 ≤ p.2 ∧ p.2 ≤ (loadDoc a e).getNumPages := by
  intro p hp
  by_cases hacc : a.ok = true ∧ a.argc = 2 ∧ a.printVersion = false ∧ a.printHelp = false
  · obtain ⟨hok, hargc, hv, hh⟩ := hacc
    rw [main_of_accepted a e hok hargc hv hh] at hp
    have h1 := normFirst_pos a
    have h2 := normLast_le a (loadDoc a e).getNumPages
    cases henc : resolveEncoding a e with
    | none => simp [henc] at hp
    | some uMap =>
      simp only [henc] at hp
      split_ifs at hp with hdoc hmode hrange
      · simp at hp
      · simp at hp
      · simp only [extractbb, List.mem_singleton] at hp
        rw [hp]
        exact ⟨h1, by simpa using hrange⟩
      · simp only [report, Trace.app, Trace.print, List.nil_append, List.append_nil,
          List.mem_append, printTheBoxes_eq, pageLoop] at hp
        rcases hp with hp | hp
        · have := forPages_lk_bounds _ _ _ (by omega)
            (pageSizeBody_lk e (loadDoc a e) (normMulti a)) _ _ p hp
          omega
        · cases hm : normMulti a
          · simp only [hm, if_false, Bool.false_eq_true] at hp
            have := forPages_lk_bounds _ _ _ hN (boxBody_lk (loadDoc a e)) _ _ p hp
            omega
          · simp only [hm, if_true] at hp
            have := forPages_lk_bounds _ _ _ (by omega) (boxBody_lk (loadDoc a e)) _ _ p hp
            omega
  · have hrej : a.ok = false ∨ a.argc ≠ 2 ∨ a.printVersion = true ∨ a.printHelp = true := by
      by_contra hcon
      apply hacc
      simp only [not_or, Bool.not_eq_false, Bool.not_eq_true, ne_eq, not_not] at hcon
      exact hcon
    rw [(main_of_rejected a e hrej).2.2] at hp
    simp at hp

/-- The run `pdfinfo -f 2 -l 5 a.pdf` on a three-page document looks up pages 2 and 3
only. -/
theorem main_lookups_in_range_witness :
    (loadDoc (sampleArgs false 2 5) (sampleEnv (sampleDoc 3 samplePage))).getNumPages <
      2147483647 ∧
    (main (sampleArgs false 2 5) (sampleEnv (sampleDoc 3 samplePage))).lookups =
      [(Lookup.getPageCropWidth, 2), (Lookup.getPageCropHeight, 2), (Lookup.getPageRotate, 2),
       (Lookup.getPageCropWidth, 3), (Lookup.getPageCropHeight, 3), (Lookup.getPageRotate, 3),
       (Lookup.getPage, 2), (Lookup.getPage, 3)] ∧
    (1 : Int) ≤ 3 ∧
    (3 : Int) ≤
      (loadDoc (sampleArgs false 2 5) (sampleEnv (sampleDoc 3 samplePage))).getNumPages :=
  ⟨by decide, by decide,
    main_lookups_in_range (sampleArgs false 2 5) (sampleEnv (sampleDoc 3 samplePage))
      (by decide) (Lookup.getPage, 3) (by decide)⟩

/-- C3 (as stated) fails: on a document of `INT_MAX` pages, `pdfinfo -f 2147483647
-l 2147483647 a.pdf` looks up page `INT_MAX`, the step `++pg` overflows, the test
`pg <= lastPage` holds again, and the page size loop looks up the page number
that the overflow leaves in `pg`, here `INT_MIN`. -/
theorem main_lookups_after_overflow :
    (0 : Int) ≤ (loadDoc (sampleArgs false 2147483647 2147483647)
      (sampleEnv (sampleDoc 2147483647 samplePage))).getNumPages ∧
    (Lookup.getPageCropWidth, -2147483648) ∈
      (main (sampleArgs false 2147483647 2147483647)
        (sampleEnv (sampleDoc 2147483647 samplePage))).lookups ∧
    ¬ (1 : Int) ≤ -2147483648 := by
  decide

/-! ## The box report -/

theorem cRound_sub_le {α : Type} [LinearOrderedField α] [FloorRing α] (x : α) :
    |(cRound x : α) - x| ≤ 1 / 2 := by
  unfold cRound
  split_ifs with h
  · have h1 := Int.floor_le (x + 1 / 2)
    have h2 := Int.lt_floor_add_one (x + 1 / 2)
    rw [abs_le]
    constructor <;> linarith
  · have h1 := Int.le_ceil (x - 1 / 2)
    have h2 := Int.ceil_lt_add_one (x - 1 / 2)
    rw [abs_le]
    constructor <;> linarith

/-- The value `cRound x` is an integer nearest to `x`. -/
theorem cRound_nearest {α : Type} [LinearOrderedField α] [FloorRing α] (x : α) (m : Int) :
    |(cRound x : α) - x| ≤ |(m : α) - x| := by
  have h := cRound_sub_le x
  rcases lt_trichotomy m (cRound x) with hlt | heq | hgt
  · have h1 : (m : α) + 1 ≤ (cRound x : α) := by exact_mod_cast hlt
    rw [abs_le] at h
    have h2 : (1 : α) / 2 ≤ |(m : α) - x| := by
      rw [le_abs]
      right
      linarith [h.1, h.2]
    exact le_trans (abs_le.mpr h) h2
  · rw [heq]
  · have h1 : (cRound x : α) + 1 ≤ (m : α) := by exact_mod_cast hgt
    rw [abs_le] at h
    have h2 : (1 : α) / 2 ≤ |(m : α) - x| := by
      rw [le_abs]
      left
      linarith [h.1, h.2]
    exact le_trans (abs_le.mpr h) h2

theorem cRound_intCast {α : Type} [LinearOrderedField α] [FloorRing α] (n : Int) :
    cRound (n : α) = n := by
  unfold cRound
  split_ifs with h
  · rw [Int.floor_eq_iff]
    constructor <;> linarith
  · rw [Int.ceil_eq_iff]
    constructor <;> linarith

theorem fitsInt_cRound {α : Type} [LinearOrderedField α] [FloorRing α] (x : α)
    (h : |x| ≤ 2147483647) : fitsInt (cRound x) := by
  have h1 := abs_le.mp (cRound_sub_le x)
  have h2 := abs_le.mp h
  constructor
  · have : ((-2147483649 : Int) : α) < (cRound x : α) := by
      push_cast
      linarith [h1.1, h2.1]
    have := Int.cast_lt.mp this
    omega
  · have : (cRound x : α) < ((2147483648 : Int) : α) := by
      push_cast
      linarith [h1.2, h2.2]
    have := Int.cast_lt.mp this
    omega

theorem castInt_of_fits (indefinite z : Int) (h : fitsInt z) : castInt indefinite z = z := by
  unfold castInt
  exact if_pos h

/-- C7 (as amended): in extractbb mode with the first page within the document, let `r`
be the box of the first page that its hint names (the media box for `MEDIA`, the
crop box for `CROP`, and so on for `BLEED`, `TRIM` and `ART`), its four
coordinates rounding to integers that fit an `int`.  Then `main` prints, after
the title and creator lines, the `%%BoundingBox` line with `x1 y1 x2 y2` of `r`
each rounded to a nearest integer, and the `%%HiResBoundingBox` line with the
same four coordinates unrounded, followed by the version, page count and date
lines. -/
theorem extractbb_bounding_box {α : Type} [LinearOrderedField α] [FloorRing α] (a : Args)
    (e : Env α) (uMap : UnicodeMap) (hok : a.ok = true) (hargc : a.argc = 2)
    (hv : a.printVersion = false) (hh : a.printHelp = false)
    (henc : resolveEncoding a e = some uMap) (hdoc : (loadDoc a e).isOk = true)
    (hmode : a.extractbbMode = true) (hrange : normFirst a ≤ (loadDoc a e).getNumPages)
    (r : PDFRectangle α)
    (hsel :
      (((loadDoc a e).getPage (normFirst a)).dvipdfmxBB = BBType.MEDIA ∧
        r = ((loadDoc a e).getPage (normFirst a)).getMediaBox) ∨
      (((loadDoc a e).getPage (normFirst a)).dvipdfmxBB = BBType.CROP ∧
        r = ((loadDoc a e).getPage (normFirst a)).getCropBox) ∨
      (((loadDoc a e).getPage (normFirst a)).dvipdfmxBB = BBType.BLEED ∧
        r = ((loadDoc a e).getPage (normFirst a)).getBleedBox) ∨
      (((loadDoc a e).getPage (normFirst a)).dvipdfmxBB = BBType.TRIM ∧
        r = ((loadDoc a e).getPage (normFirst a)).getTrimBox) ∨
      (((loadDoc a e).getPage (normFirst a)).dvipdfmxBB = BBType.ART ∧
        r = ((loadDoc a e).getPage (normFirst a)).getArtBox))
    (hfit : fitsInt (cRound r.x1) ∧ fitsInt (cRound r.y1) ∧ fitsInt (cRound r.x2) ∧
      fitsInt (cRound r.y2)) :
    (main a e).stdout =
      [Out.printf "%%%%Title: %s\n" [Arg.s (Text.lit a.fileName)],
       Out.printf "%%%%Creator: pdfinfo version %s\n" [Arg.s (Text.lit e.xpdfVersion)],
       Out.printf "%%%%BoundingBox: %d %d %d %d\n"
         [Arg.d (cRound r.x1), Arg.d (cRound r.y1), Arg.d (cRound r.x2), Arg.d (cRound r.y2)],
       Out.printf "%%%%HiResBoundingBox: %8.6f %8.6f %8.6f %8.6f\n"
         [Arg.f r.x1, Arg.f r.y1, Arg.f r.x2, Arg.f r.y2],
       Out.printf "%%%%PDFVersion: %.1f\n" [Arg.f (loadDoc a e).getPDFVersion],
       Out.printf "%%%%Pages: %d\n" [Arg.d (loadDoc a e).getNumPages],
       Out.printf "%%%%CreationDate: %s\n" [Arg.s (Text.lit e.asctimeNow)]] ∧
    ∀ x ∈ [r.x1, r.y1, r.x2, r.y2], ∀ m : Int, |(cRound x : α) - x| ≤ |(m : α) - x| := by
  refine ⟨?_, fun x _ m => cRound_nearest x m⟩
  have h := main_of_accepted a e hok hargc hv hh
  rw [henc] at h
  have hnot : ¬ normFirst a > (loadDoc a e).getNumPages := not_lt.mpr hrange
  simp only [hdoc, hmode, hnot, Bool.not_true, Bool.false_eq_true, if_false, if_true] at h
  rw [h]
  have hsel2 : selectBB ((loadDoc a e).getPage (normFirst a)) e.hiresBBGarbage = some r := by
    unfold selectBB
    rcases hsel with ⟨h1, h2⟩ | ⟨h1, h2⟩ | ⟨h1, h2⟩ | ⟨h1, h2⟩ | ⟨h1, h2⟩ <;> rw [h1, h2]
  obtain ⟨f1, f2, f3, f4⟩ := hfit
  simp only [extractbb, hsel2, printBB, castInt_of_fits _ _ f1, castInt_of_fits _ _ f2,
    castInt_of_fits _ _ f3, castInt_of_fits _ _ f4, List.cons_append, List.nil_append]

/-- The run `pdfinfo -extractbb a.pdf` on a two-page document whose first page has the hint
`CROP` and the crop box `[10.5 10.25 600.5 780.75]`. -/
theorem extractbb_bounding_box_witness :
    (sampleArgs true 1 0).extractbbMode = true ∧
    normFirst (sampleArgs true 1 0) ≤
      (loadDoc (sampleArgs true 1 0) (sampleEnv (sampleDoc 2 samplePage))).getNumPages ∧
    samplePage.dvipdfmxBB = BBType.CROP ∧
    (main (sampleArgs true 1 0) (sampleEnv (sampleDoc 2 samplePage))).stdout =
      [Out.printf "%%%%Title: %s\n" [Arg.s (Text.lit "a.pdf")],
       Out.printf "%%%%Creator: pdfinfo version %s\n" [Arg.s (Text.lit "3.04")],
       Out.printf "%%%%BoundingBox: %d %d %d %d\n"
         [Arg.d (cRound (21 / 2 : ℚ)), Arg.d (cRound (41 / 4 : ℚ)),
          Arg.d (cRound (1201 / 2 : ℚ)), Arg.d (cRound (3123 / 4 : ℚ))],
       Out.printf "%%%%HiResBoundingBox: %8.6f %8.6f %8.6f %8.6f\n"
         [Arg.f (21 / 2), Arg.f (41 / 4), Arg.f (1201 / 2), Arg.f (3123 / 4)],
       Out.printf "%%%%PDFVersion: %.1f\n" [Arg.f (3 / 2)],
       Out.printf "%%%%Pages: %d\n" [Arg.d 2],
       Out.printf "%%%%CreationDate: %s\n" [Arg.s (Text.lit "Thu Jan  1 00:00:00 1970\n")]] :=
  ⟨rfl, by decide, rfl,
    (extractbb_bounding_box (sampleArgs true 1 0) (sampleEnv (sampleDoc 2 samplePage))
      ⟨fun u => [Char.ofNat u]⟩ rfl rfl rfl rfl rfl rfl rfl (by decide)
      samplePage.getCropBox (Or.inr (Or.inl ⟨rfl, rfl⟩))
      ⟨fitsInt_cRound _ (by simp only [samplePage]; rw [abs_le]; constructor <;> norm_num),
       fitsInt_cRound _ (by simp only [samplePage]; rw [abs_le]; constructor <;> norm_num),
       fitsInt_cRound _ (by simp only [samplePage]; rw [abs_le]; constructor <;> norm_num),
       fitsInt_cRound _ (by simp only [samplePage]; rw [abs_le]; constructor <;> norm_num)⟩).1⟩

/-- C7 (as stated) fails: on a first page with the hint `CROP` whose crop box is
`[0 0 3000000000 792]`, the third integer of the `%%BoundingBox` line is not the
coordinate `x2` rounded, which no `int` holds. -/
theorem extractbb_wide_crop_box :
    widePage.dvipdfmxBB = BBType.CROP ∧ widePage.getCropBox = ⟨0, 0, 3000000000, 792⟩ ∧
    cRound (3000000000 : ℚ) = 3000000000 ∧
    (main (sampleArgs true 1 0) (sampleEnv (sampleDoc 1 widePage))).stdout[2]? =
      some (Out.printf "%%%%BoundingBox: %d %d %d %d\n"
        [Arg.d 0, Arg.d 0, Arg.d (-2147483648), Arg.d 792]) := by
  have c0 : cRound (0 : ℚ) = 0 := by exact_mod_cast cRound_intCast (0 : Int)
  have c1 : cRound (3000000000 : ℚ) = 3000000000 := by
    exact_mod_cast cRound_intCast (3000000000 : Int)
  have c2 : cRound (792 : ℚ) = 792 := by exact_mod_cast cRound_intCast (792 : Int)
  refine ⟨rfl, rfl, c1, ?_⟩
  have h := main_of_accepted (sampleArgs true 1 0) (sampleEnv (sampleDoc 1 widePage))
    rfl rfl rfl rfl
  rw [h]
  simp [resolveEncoding, sampleEnv, sampleArgs, loadDoc, sampleDoc, normFirst, extractbb,
    selectBB, widePage, samplePage, printBB, c0, c1, c2, castInt, fitsInt]

/-! ## Dates -/

theorem sscanfCount_cons (v : Int) (l : List Int) (b : Bool) : sscanfCount (v :: l, b) ≥ 1 := by
  simp only [sscanfCount, List.isEmpty_cons, Bool.false_and, Bool.false_eq_true, if_false,
    List.length_cons]
  omega

theorem scanAll_ok (w : Nat) (ws : List Nat) (s : List Char) (v : Int) (rest : List Char)
    (h : scanInt w s = Scan.ok v rest) :
    scanAll (w :: ws) s = (v :: (scanAll ws rest).1, (scanAll ws rest).2) := by
  rw [scanAll, h]

theorem scanAll_inputFailure (w : Nat) (ws : List Nat) (s : List Char)
    (h : scanInt w s = Scan.inputFailure) : scanAll (w :: ws) s = ([], true) := by
  rw [scanAll, h]

theorem scanAll_matchFailure (w : Nat) (ws : List Nat) (s : List Char)
    (h : scanInt w s = Scan.matchFailure) : scanAll (w :: ws) s = ([], false) := by
  rw [scanAll, h]

theorem takeWhile_take_isEmpty (p : Char → Bool) (n : Nat) (l : List Char) (hn : 0 < n) :
    ((l.take n).takeWhile p).isEmpty = true ↔ ∀ c ∈ l.head?, p c = false := by
  cases l with
  | nil => simp
  | cons c t =>
    obtain ⟨k, rfl⟩ : ∃ k, n = k + 1 := ⟨n - 1, by omega⟩
    by_cases hc : p c = true <;> simp [List.takeWhile_cons, hc]

theorem scanInt_not_ok_iff (u : List Char) :
    (∀ v rest, scanInt 4 u ≠ Scan.ok v rest) ↔
      (match u.dropWhile isspace with
       | [] => True
       | c :: rest =>
         if c = '-' ∨ c = '+' then ∀ c2 ∈ rest.head?, c2.isDigit = false
         else c.isDigit = false) := by
  unfold scanInt
  cases h : u.dropWhile isspace with
  | nil => simp
  | cons c rest =>
    by_cases hs : c = '-' ∨ c = '+'
    · have hs2 : (c == '-' || c == '+') = true := by simpa using hs
      simp only [hs2, hs, if_true]
      rw [← takeWhile_take_isEmpty Char.isDigit (4 - 1) rest (by decide)]
      by_cases hd : (List.takeWhile Char.isDigit (List.take (4 - 1) rest)).isEmpty = true
      · simp [hd]
      · simp [hd]
    · have hs2 : (c == '-' || c == '+') = false := by simpa using hs
      simp only [hs2, hs, if_false, Bool.false_eq_true]
      by_cases hd : c.isDigit = true
      · simp [List.takeWhile_cons, hd]
      · simp [List.takeWhile_cons, hd]

theorem dateTm_eq_none_iff (g : DateVars) (s : List Char) : dateTm g s = none ↔ noYear s := by
  unfold noYear
  rw [← scanInt_not_ok_iff]
  unfold dateTm
  cases h : scanInt 4 (skipD s) with
  | inputFailure => simp [scanAll_inputFailure _ _ _ h, sscanfCount]
  | matchFailure => simp [scanAll_matchFailure _ _ _ h, sscanfCount]
  | ok v rest =>
    have := sscanfCount_cons v (scanAll [2, 2, 2, 2, 2] rest).1 (scanAll [2, 2, 2, 2, 2] rest).2
    simp [scanAll_ok _ _ _ _ _ h, this]

/-- C4 (as amended): in non-raw date mode, for every `CreationDate`/`ModDate` string
value from which `sscanf` converts no year (after the optional `D:` and any white
space the text ends, or starts with neither a decimal digit nor a sign followed
by a decimal digit), `printInfoDate` prints the label, then the value without
its `D:` prefix (the value itself when it has none), then a newline; and these
are the only values for which no calendar record is built. -/
theorem printInfoDate_unparsed {α : Type} (e : Env α) (infoDict : Dict) (key text : String)
    (obj : InfoString) (hlook : infoDict key = some obj) (hno : noYear obj.cstr) :
    printInfoDate e infoDict key text =
      [Out.fputs text, Out.fputs (String.mk (skipD obj.cstr)), Out.fputc '\n'] ∧
    ∀ (g : DateVars) (s : List Char), dateTm g s = none ↔ noYear s := by
  refine ⟨?_, dateTm_eq_none_iff⟩
  have h := (dateTm_eq_none_iff e.dateGarbage obj.cstr).mpr hno
  simp [printInfoDate, hlook, h]

/-- The value `D:abc`, found under `CreationDate`. -/
theorem printInfoDate_unparsed_witness :
    noYear "D:abc".toList ∧
    printInfoDate (sampleEnv (sampleDoc 1 samplePage)) (sampleDict "D:abc") "CreationDate"
        "CreationDate:   " =
      [Out.fputs "CreationDate:   ", Out.fputs (String.mk (skipD "D:abc".toList)),
       Out.fputc '\n'] :=
  ⟨by decide,
    (printInfoDate_unparsed (sampleEnv (sampleDoc 1 samplePage)) (sampleDict "D:abc")
      "CreationDate" "CreationDate:   " ⟨"D:abc".toList, []⟩ rfl (by decide)).1⟩

/-- C4 (as stated) fails twice.  The value `D:abc` has no digit after `D:`, and what is
printed after the label is `abc`, not the value as stored.  The value `199` has
three leading digits, and `sscanf` converts the year 199: a calendar record is
handed to `mktime`, and with `mktime` and `strftime` succeeding their text is
printed, not the value. -/
theorem printInfoDate_not_verbatim :
    printInfoDate (sampleEnv (sampleDoc 1 samplePage)) (sampleDict "D:abc") "CreationDate"
        "CreationDate:   " =
      [Out.fputs "CreationDate:   ", Out.fputs "abc", Out.fputc '\n'] ∧
    dateTm ⟨7, 7, 7, 7, 7, 7⟩ "199".toList = some ⟨199 - 1900, 0, 1, 0, 0, 0, -1, -1, -1⟩ ∧
    printInfoDate (sampleEnv (sampleDoc 1 samplePage)) (sampleDict "199") "CreationDate"
        "CreationDate:   " =
      [Out.fputs "CreationDate:   ", Out.fputs "Wed Jan  1 00:00:00 2020", Out.fputc '\n'] := by
  refine ⟨?_, by decide, ?_⟩
  · rfl
  · rfl

theorem scanAll_length_le : ∀ (ws : List Nat) (s : List Char),
    (scanAll ws s).1.length ≤ ws.length := by
  intro ws
  induction ws with
  | nil => intro s; simp [scanAll]
  | cons w ws ih =>
    intro s
    cases h : scanInt w s with
    | inputFailure => simp [scanAll_inputFailure _ _ _ h]
    | matchFailure => simp [scanAll_matchFailure _ _ _ h]
    | ok v rest =>
      rw [scanAll_ok _ _ _ _ _ h]
      simpa using ih rest

theorem isspace_of_isDigit (c : Char) (h : c.isDigit = true) : isspace c = false := by
  cases hs : isspace c with
  | false => rfl
  | true =>
    simp only [isspace, Bool.or_eq_true, beq_iff_eq] at hs
    rcases hs with ((((hs | hs) | hs) | hs) | hs) | hs <;> subst hs <;> exact absurd h (by decide)

theorem not_sign_of_isDigit (c : Char) (h : c.isDigit = true) :
    (c == '-' || c == '+') = false := by
  cases hs : (c == '-' || c == '+') with
  | false => rfl
  | true =>
    simp only [Bool.or_eq_true, beq_iff_eq] at hs
    rcases hs with hs | hs <;> subst hs <;> exact absurd h (by decide)

theorem skipD_of_isDigit (c : Char) (t : List Char) (h : c.isDigit = true) :
    skipD (c :: t) = c :: t := by
  unfold skipD
  split
  · rename_i heq
    simp only [List.cons.injEq] at heq
    obtain ⟨rfl, _⟩ := heq
    exact absurd h (by decide)
  · rfl

theorem scanAll_year_only (c1 c2 c3 c4 : Char) (h1 : c1.isDigit = true)
    (h2 : c2.isDigit = true) (h3 : c3.isDigit = true) (h4 : c4.isDigit = true) :
    scanAll [4, 2, 2, 2, 2, 2] [c1, c2, c3, c4] =
      ([((1000 * (c1.toNat - 48) + 100 * (c2.toNat - 48) + 10 * (c3.toNat - 48) +
        (c4.toNat - 48) : Nat) : Int)], true) := by
  have hs : scanInt 4 [c1, c2, c3, c4] =
      Scan.ok ((1000 * (c1.toNat - 48) + 100 * (c2.toNat - 48) + 10 * (c3.toNat - 48) +
        (c4.toNat - 48) : Nat) : Int) [] := by
    have hsign := not_sign_of_isDigit c1 h1
    simp only [Bool.or_eq_false_iff] at hsign
    obtain ⟨hm, hp⟩ := hsign
    have hm2 : ¬ c1 = '-' := by simpa using hm
    simp only [scanInt, List.dropWhile_cons, isspace_of_isDigit c1 h1, hm, hp, Bool.or_false,
      Bool.false_eq_true, if_false, List.take, List.takeWhile_cons, h1, h2, h3, h4, if_true,
      List.takeWhile_nil, List.isEmpty_cons, List.length_cons, List.length_nil, List.drop,
      digitsValue, List.foldl_cons, List.foldl_nil]
    congr 1
    push_cast
    ring
  rw [scanAll_ok _ _ _ _ _ hs]
  have hs2 : scanInt 2 [] = Scan.inputFailure := rfl
  rw [scanAll_inputFailure _ _ _ hs2]

theorem dateTm_of_scan (g : DateVars) (s : List Char) (vals : List Int)
    (hvals : (scanAll [4, 2, 2, 2, 2, 2] (skipD s)).1 = vals) (hn : 1 ≤ vals.length) :
    vals.length ≤ 6 ∧
    ∃ year mon day hour min sec : Int,
      vals ++ ([1, 1, 0, 0, 0] : List Int).drop (vals.length - 1) =
        [year, mon, day, hour, min, sec] ∧
      dateTm g s = some ⟨year - 1900, mon - 1, day, hour, min, sec, -1, -1, -1⟩ := by
  have hlen := scanAll_length_le [4, 2, 2, 2, 2, 2] (skipD s)
  rw [hvals] at hlen
  refine ⟨hlen, ?_⟩
  unfold dateTm
  generalize scanAll [4, 2, 2, 2, 2, 2] (skipD s) = r at hvals
  obtain ⟨l, b⟩ := r
  simp only at hvals
  subst hvals
  simp only [List.length_cons, List.length_nil] at hlen
  rcases l with _ | ⟨a1, _ | ⟨a2, _ | ⟨a3, _ | ⟨a4, _ | ⟨a5, _ | ⟨a6, _ | ⟨a7, l⟩⟩⟩⟩⟩⟩⟩
  · simp at hn
  · exact ⟨a1, 1, 1, 0, 0, 0, rfl, rfl⟩
  · exact ⟨a1, a2, 1, 0, 0, 0, rfl, rfl⟩
  · exact ⟨a1, a2, a3, 0, 0, 0, rfl, rfl⟩
  · exact ⟨a1, a2, a3, a4, 0, 0, rfl, rfl⟩
  · exact ⟨a1, a2, a3, a4, a5, 0, rfl, rfl⟩
  · exact ⟨a1, a2, a3, a4, a5, a6, rfl, rfl⟩
  · simp only [List.length_cons] at hlen
    omega

theorem dateTm_year_only (g : DateVars) (c1 c2 c3 c4 : Char) (h1 : c1.isDigit = true)
    (h2 : c2.isDigit = true) (h3 : c3.isDigit = true) (h4 : c4.isDigit = true)
    (s : List Char) (hs : skipD s = [c1, c2, c3, c4]) :
    dateTm g s =
      some ⟨((1000 * (c1.toNat - 48) + 100 * (c2.toNat - 48) + 10 * (c3.toNat - 48) +
        (c4.toNat - 48) : Nat) : Int) - 1900, 0, 1, 0, 0, 0, -1, -1, -1⟩ := by
  unfold dateTm
  rw [hs, scanAll_year_only c1 c2 c3 c4 h1 h2 h3 h4]
  rfl

/-- On the parsed path `printInfoDate` prints the label, what `printNormalised`
makes of the record `dateTm` builds, and a newline. -/
theorem printInfoDate_of_dateTm {α : Type} (e : Env α) (infoDict : Dict) (key text : String)
    (obj : InfoString) (tmStruct : Tm) (hlook : infoDict key = some obj)
    (htm : dateTm e.dateGarbage obj.cstr = some tmStruct) :
    printInfoDate e infoDict key text =
      [Out.fputs text] ++ printNormalised e tmStruct (skipD obj.cstr) ++ [Out.fputc '\n'] := by
  simp only [printInfoDate, hlook, htm]

/-- C5: in non-raw date mode, when `sscanf` assigns exactly `n` of the six fields
of a date string (`1 <= n <= 6`, the values `vals` in the order year, month, day,
hour, minute, second), `printInfoDate` prints the label, hands `mktime` the
calendar record built from these `n` values followed by the defaults of the
fields after them, taken from month = 1, day = 1, hour = 0, min = 0, sec = 0
(as `tm_year = year - 1900`, `tm_mon = month - 1`), whatever the locals held
before, prints what `strftime` makes of the normalised record (or the string,
when either fails), and a newline.  In particular a value that is four decimal
digits `YYYY`, with or without `D:` in front, hands over 1 January `YYYY`,
00:00:00. -/
theorem printInfoDate_defaults {α : Type} (e : Env α) (infoDict : Dict) (key text : String)
    (obj : InfoString) (vals : List Int) (hlook : infoDict key = some obj)
    (hvals : (scanAll [4, 2, 2, 2, 2, 2] (skipD obj.cstr)).1 = vals)
    (hn : 1 ≤ vals.length) :
    vals.length ≤ 6 ∧
    (∃ year mon day hour min sec : Int,
      vals ++ ([1, 1, 0, 0, 0] : List Int).drop (vals.length - 1) =
        [year, mon, day, hour, min, sec] ∧
      dateTm e.dateGarbage obj.cstr =
        some ⟨year - 1900, mon - 1, day, hour, min, sec, -1, -1, -1⟩ ∧
      printInfoDate e infoDict key text =
        [Out.fputs text] ++
          (match e.mktime ⟨year - 1900, mon - 1, day, hour, min, sec, -1, -1, -1⟩ with
           | some tmNorm =>
             match e.strftime tmNorm with
             | some buf => [Out.fputs buf]
             | none => [Out.fputs (String.mk (skipD obj.cstr))]
           | none => [Out.fputs (String.mk (skipD obj.cstr))])
          ++ [Out.fputc '\n']) ∧
    ∀ (c1 c2 c3 c4 : Char) (unicode : List Nat) (dict2 : Dict) (key2 text2 : String)
      (cstr2 : List Char),
      c1.isDigit = true → c2.isDigit = true → c3.isDigit = true → c4.isDigit = true →
      cstr2 = [c1, c2, c3, c4] ∨ cstr2 = ['D', ':', c1, c2, c3, c4] →
      dict2 key2 = some ⟨cstr2, unicode⟩ →
      printInfoDate e dict2 key2 text2 =
        [Out.fputs text2] ++
          (match e.mktime ⟨((1000 * (c1.toNat - 48) + 100 * (c2.toNat - 48) +
              10 * (c3.toNat - 48) + (c4.toNat - 48) : Nat) : Int) - 1900,
              0, 1, 0, 0, 0, -1, -1, -1⟩ with
           | some tmNorm =>
             match e.strftime tmNorm with
             | some buf => [Out.fputs buf]
             | none => [Out.fputs (String.mk [c1, c2, c3, c4])]
           | none => [Out.fputs (String.mk [c1, c2, c3, c4])])
          ++ [Out.fputc '\n'] := by
  obtain ⟨hle, year, mon, day, hour, min, sec, hfields, htm⟩ :=
    dateTm_of_scan e.dateGarbage obj.cstr vals hvals hn
  refine ⟨hle, ⟨year, mon, day, hour, min, sec, hfields, htm, ?_⟩, ?_⟩
  · rw [printInfoDate_of_dateTm e infoDict key text obj _ hlook htm]
    rfl
  · intro c1 c2 c3 c4 unicode dict2 key2 text2 cstr2 h1 h2 h3 h4 hc hl2
    have hskip : skipD cstr2 = [c1, c2, c3, c4] := by
      rcases hc with hc | hc
      · rw [hc]
        exact skipD_of_isDigit c1 _ h1
      · rw [hc]
        rfl
    have htm2 := dateTm_year_only e.dateGarbage c1 c2 c3 c4 h1 h2 h3 h4 cstr2 hskip
    rw [printInfoDate_of_dateTm e dict2 key2 text2 ⟨cstr2, unicode⟩ _ hl2 htm2]
    simp only [hskip]
    rfl

/-- The value `D:202011` under `CreationDate`: year and month are parsed, the day defaults
to 1 and the time to 00:00:00; `mktime` is handed the record of 1 November 2020,
00:00:00. -/
theorem printInfoDate_defaults_witness :
    sampleDict "D:202011" "CreationDate" = some ⟨"D:202011".toList, []⟩ ∧
    (scanAll [4, 2, 2, 2, 2, 2] (skipD "D:202011".toList)).1 = [2020, 11] ∧
    dateTm ⟨7, 7, 7, 7, 7, 7⟩ "D:202011".toList = some ⟨120, 10, 1, 0, 0, 0, -1, -1, -1⟩ ∧
    ∃ year mon day hour min sec : Int,
      [2020, 11] ++ ([1, 1, 0, 0, 0] : List Int).drop ([2020, 11].length - 1) =
        [year, mon, day, hour, min, sec] ∧
      dateTm (sampleEnv (sampleDoc 1 samplePage)).dateGarbage "D:202011".toList =
        some ⟨year - 1900, mon - 1, day, hour, min, sec, -1, -1, -1⟩ ∧
      printInfoDate (sampleEnv (sampleDoc 1 samplePage)) (sampleDict "D:202011")
          "CreationDate" "CreationDate:   " =
        [Out.fputs "CreationDate:   "] ++
          (match (sampleEnv (sampleDoc 1 samplePage)).mktime
              ⟨year - 1900, mon - 1, day, hour, min, sec, -1, -1, -1⟩ with
           | some tmNorm =>
             match (sampleEnv (sampleDoc 1 samplePage)).strftime tmNorm with
             | some buf => [Out.fputs buf]
             | none => [Out.fputs (String.mk (skipD "D:202011".toList))]
           | none => [Out.fputs (String.mk (skipD "D:202011".toList))])
          ++ [Out.fputc '\n'] :=
  ⟨rfl, by decide, by decide,
    (printInfoDate_defaults (sampleEnv (sampleDoc 1 samplePage)) (sampleDict "D:202011")
      "CreationDate" "CreationDate:   " ⟨"D:202011".toList, []⟩ [2020, 11] rfl (by decide)
      (by decide)).2.1⟩

/-! ## Paper sizes -/

/-- The loop started at iteration `k` prints `(A<j>)` exactly when test `j` is the
first of the tests `k, ..., 6` to succeed, `fuel` iterations being enough to
reach it. -/
theorem isoLoop_eq_iff {α : Type} [LinearOrderedField α] (sqrt : α → α) (w h : α) (j : Nat) :
    ∀ (fuel k : Nat),
      isoLoop sqrt w h fuel (k : Int) (isoRef sqrt k).1 (isoRef sqrt k).2 =
          [Out.printf " (A%d)" [Arg.d (j : Int)]] ↔
        k ≤ j ∧ j < k + fuel ∧ j ≤ 6 ∧ isoTestAt sqrt j w h ∧
          ∀ m, k ≤ m → m < j → ¬ isoTestAt sqrt m w h := by
  intro fuel
  induction fuel with
  | zero =>
    intro k
    simp only [isoLoop, add_zero]
    constructor
    · intro h0
      cases h0
    · rintro ⟨h1, h2, _⟩
      omega
  | succ n ih =>
    intro k
    by_cases hk : (k : Int) ≤ 6
    · by_cases ht : isoTest w h (isoRef sqrt k).1 (isoRef sqrt k).2
      · simp only [isoLoop, hk, ht, if_true]
        constructor
        · intro heq
          simp only [List.cons.injEq, Out.printf.injEq, Arg.d.injEq, Nat.cast_inj, and_true,
            true_and] at heq
          subst heq
          exact ⟨le_refl _, by omega, by omega, ht, fun m h1 h2 => by omega⟩
        · rintro ⟨h1, h2, h3, h4, h5⟩
          have : k = j := by
            by_contra hne
            exact h5 k (le_refl _) (by omega) ht
          rw [this]
      · simp only [isoLoop, hk, ht, if_true, if_false]
        have hstep := ih (k + 1)
        simp only [isoRef, Nat.cast_add, Nat.cast_one] at hstep
        rw [hstep]
        constructor
        · rintro ⟨h1, h2, h3, h4, h5⟩
          refine ⟨by omega, by omega, h3, h4, ?_⟩
          intro m hm1 hm2
          rcases eq_or_lt_of_le hm1 with heq | hlt
          · rw [← heq]
            exact ht
          · exact h5 m (by omega) hm2
        · rintro ⟨h1, h2, h3, h4, h5⟩
          have hne : k ≠ j := by
            intro heq
            rw [heq] at ht
            exact ht h4
          exact ⟨by omega, by omega, h3, h4, fun m hm1 hm2 => h5 m (by omega) hm2⟩
    · simp only [isoLoop, hk, if_false]
      constructor
      · intro h0
        cases h0
      · rintro ⟨h1, h2, h3, _⟩
        omega

theorem sizeAnnot_letter_iff {α : Type} [LinearOrderedField α] (sqrt : α → α) (w h : α) :
    sizeAnnot sqrt w h = [Out.printf " (letter)" []] ↔ letterTest w h := by
  unfold sizeAnnot
  by_cases hl : letterTest w h
  · simp [hl]
  · simp only [hl, if_false, iff_false]
    intro hcon
    have : ∀ (fuel : Nat) (i : Int) (a b : α),
        isoLoop sqrt w h fuel i a b ≠ [Out.printf " (letter)" []] := by
      intro fuel
      induction fuel with
      | zero => intro i a b hc; cases hc
      | succ n ih =>
        intro i a b hc
        simp only [isoLoop] at hc
        split_ifs at hc
        · simp at hc
        · exact ih _ _ _ hc
    exact this _ _ _ _ hcon

theorem sizeAnnot_iso_iff {α : Type} [LinearOrderedField α] (sqrt : α → α) (w h : α) (j : Nat) :
    sizeAnnot sqrt w h = [Out.printf " (A%d)" [Arg.d (j : Int)]] ↔
      ¬ letterTest w h ∧ j ≤ 6 ∧ isoTestAt sqrt j w h ∧ ∀ m, m < j → ¬ isoTestAt sqrt m w h := by
  unfold sizeAnnot
  by_cases hl : letterTest w h
  · simp [hl]
  · simp only [hl, if_false, not_false_eq_true, true_and]
    have h0 := isoLoop_eq_iff sqrt w h j 7 0
    simp only [isoRef, Nat.cast_zero] at h0
    rw [h0]
    constructor
    · rintro ⟨_, _, h3, h4, h5⟩
      exact ⟨h3, h4, fun m hm => h5 m (Nat.zero_le _) hm⟩
    · rintro ⟨h3, h4, h5⟩
      exact ⟨Nat.zero_le _, by omega, h3, h4, fun m _ hm => h5 m hm⟩

theorem sqrt_two_bounds :
    (141421 / 100000 : ℝ) < Real.sqrt 2 ∧ Real.sqrt 2 < 141422 / 100000 := by
  constructor
  · rw [Real.lt_sqrt (by norm_num)]
    norm_num
  · rw [Real.sqrt_lt' (by norm_num)]
    norm_num

theorem sqrt_sqrt_two_bounds :
    (11892 / 10000 : ℝ) < Real.sqrt (Real.sqrt 2) ∧
      Real.sqrt (Real.sqrt 2) < 118921 / 100000 := by
  obtain ⟨h1, h2⟩ := sqrt_two_bounds
  constructor
  · rw [Real.lt_sqrt (by norm_num)]
    refine lt_trans ?_ h1
    norm_num
  · rw [Real.sqrt_lt' (by norm_num)]
    refine lt_trans h2 ?_
    norm_num

theorem isoRef_snd {α : Type} [LinearOrderedField α] (sqrt : α → α) (i : Nat) :
    (isoRef sqrt i).2 = (isoRef sqrt i).1 / sqrt 2 := by
  cases i <;> rfl

theorem isoRef_fst_succ {α : Type} [LinearOrderedField α] (sqrt : α → α) (i : Nat) :
    (isoRef sqrt (i + 1)).1 = (isoRef sqrt i).2 := rfl

theorem isoRef_fst_add_two (i : Nat) :
    (isoRef Real.sqrt (i + 2)).1 = (isoRef Real.sqrt i).1 / 2 := by
  rw [isoRef_fst_succ, isoRef_snd, isoRef_fst_succ, isoRef_snd, div_div,
    Real.mul_self_sqrt (by norm_num)]

/-- Bounds in points on the A-series reference lengths: with `a i` the long side of
`A<i>` (and the short side of `A<i-1>`), `a 0, ..., a 7` are about 3370.98,
2383.64, 1685.49, 1191.82, 842.74, 595.91, 421.37 and 297.96. -/
theorem isoRef_bounds :
    ((33709 / 10 : ℝ) < (isoRef Real.sqrt 0).1 ∧ (isoRef Real.sqrt 0).1 < 3371) ∧
    ((23836 / 10 : ℝ) < (isoRef Real.sqrt 1).1 ∧ (isoRef Real.sqrt 1).1 < 23837 / 10) ∧
    ((168545 / 100 : ℝ) < (isoRef Real.sqrt 2).1 ∧ (isoRef Real.sqrt 2).1 < 16855 / 10) ∧
    ((11918 / 10 : ℝ) < (isoRef Real.sqrt 3).1 ∧ (isoRef Real.sqrt 3).1 < 119185 / 100) ∧
    ((842725 / 1000 : ℝ) < (isoRef Real.sqrt 4).1 ∧ (isoRef Real.sqrt 4).1 < 84275 / 100) ∧
    ((5959 / 10 : ℝ) < (isoRef Real.sqrt 5).1 ∧ (isoRef Real.sqrt 5).1 < 595925 / 1000) ∧
    ((4213625 / 10000 : ℝ) < (isoRef Real.sqrt 6).1 ∧
      (isoRef Real.sqrt 6).1 < 421375 / 1000) ∧
    ((29795 / 100 : ℝ) < (isoRef Real.sqrt 7).1 ∧ (isoRef Real.sqrt 7).1 < 2979625 / 10000) := by
  obtain ⟨s1, s2⟩ := sqrt_two_bounds
  obtain ⟨q1, q2⟩ := sqrt_sqrt_two_bounds
  have hs : Real.sqrt 2 * Real.sqrt 2 = 2 := Real.mul_self_sqrt (by norm_num)
  have h0 : (isoRef Real.sqrt 0).1 = Real.sqrt (Real.sqrt 2) * 7200 / (254 / 100) := rfl
  have h1 : (isoRef Real.sqrt 1).1 =
      Real.sqrt (Real.sqrt 2) * Real.sqrt 2 * (7200 / (254 / 100) / 2) := by
    rw [isoRef_fst_succ, isoRef_snd, h0]
    have hpos : (0 : ℝ) < Real.sqrt 2 := by linarith
    field_simp
    nlinarith [hs]
  have b0 : (33709 / 10 : ℝ) < (isoRef Real.sqrt 0).1 ∧ (isoRef Real.sqrt 0).1 < 3371 := by
    rw [h0]
    constructor
    · rw [lt_div_iff₀ (by norm_num)]
      linarith
    · rw [div_lt_iff₀ (by norm_num)]
      linarith
  have p1 : (168177 / 100000 : ℝ) < Real.sqrt (Real.sqrt 2) * Real.sqrt 2 := by
    nlinarith [mul_pos (sub_pos.mpr q1) (sub_pos.mpr s1)]
  have p2 : Real.sqrt (Real.sqrt 2) * Real.sqrt 2 < (168181 / 100000 : ℝ) := by
    nlinarith [mul_pos (sub_pos.mpr q2) (sub_pos.mpr s2), mul_pos (sub_pos.mpr q1)
      (sub_pos.mpr s2), mul_pos (sub_pos.mpr q2) (sub_pos.mpr s1)]
  have b1 : (23836 / 10 : ℝ) < (isoRef Real.sqrt 1).1 ∧ (isoRef Real.sqrt 1).1 < 23837 / 10 := by
    rw [h1]
    constructor
    · have : (7200 / (254 / 100) / 2 : ℝ) = 180000 / 127 := by norm_num
      rw [this]
      nlinarith
    · have : (7200 / (254 / 100) / 2 : ℝ) = 180000 / 127 := by norm_num
      rw [this]
      nlinarith
  have e2 := isoRef_fst_add_two 0
  have e3 := isoRef_fst_add_two 1
  have e4 := isoRef_fst_add_two 2
  have e5 := isoRef_fst_add_two 3
  have e6 := isoRef_fst_add_two 4
  have e7 := isoRef_fst_add_two 5
  simp only [Nat.zero_add, Nat.reduceAdd] at e2 e3 e4 e5 e6 e7
  obtain ⟨b0l, b0u⟩ := b0
  obtain ⟨b1l, b1u⟩ := b1
  refine ⟨⟨b0l, b0u⟩, ⟨b1l, b1u⟩, ⟨?_, ?_⟩, ⟨?_, ?_⟩, ⟨?_, ?_⟩, ⟨?_, ?_⟩, ⟨?_, ?_⟩, ⟨?_, ?_⟩⟩ <;>
    linarith

theorem isoTest_sum {α : Type} [LinearOrderedField α] (w h a b : α) (ht : isoTest w h a b) :
    a + b - 2 < w + h ∧ w + h < a + b + 2 := by
  unfold isoTest at ht
  rcases ht with ⟨h1, h2⟩ | ⟨h1, h2⟩ <;> rw [abs_lt] at h1 h2 <;> constructor <;> linarith

theorem letterTest_sum {α : Type} [LinearOrderedField α] (w h : α) (ht : letterTest w h) :
    1404 - 1 / 5 < w + h ∧ w + h < 1404 + 1 / 5 := by
  unfold letterTest at ht
  rcases ht with ⟨h1, h2⟩ | ⟨h1, h2⟩ <;> rw [abs_lt] at h1 h2 <;> constructor <;> linarith

theorem isoTestAt_sum {α : Type} [LinearOrderedField α] (sqrt : α → α) (i : Nat) (w h : α)
    (ht : isoTestAt sqrt i w h) :
    (isoRef sqrt i).1 + (isoRef sqrt (i + 1)).1 - 2 < w + h ∧
      w + h < (isoRef sqrt i).1 + (isoRef sqrt (i + 1)).1 + 2 :=
  isoTest_sum w h _ _ ht

theorem letter_excludes_iso (w h : ℝ) (hl : letterTest w h) (i : Nat) (hi : i ≤ 6) :
    ¬ isoTestAt Real.sqrt i w h := by
  intro ht
  obtain ⟨l1, l2⟩ := letterTest_sum w h hl
  obtain ⟨t1, t2⟩ := isoTestAt_sum Real.sqrt i w h ht
  obtain ⟨⟨a0, b0⟩, ⟨a1, b1⟩, ⟨a2, b2⟩, ⟨a3, b3⟩, ⟨a4, b4⟩, ⟨a5, b5⟩, ⟨a6, b6⟩, ⟨a7, b7⟩⟩ :=
    isoRef_bounds
  interval_cases i <;> simp only [Nat.reduceAdd] at t1 t2 <;> linarith

theorem sums_separated (a : Nat → ℝ) (x : ℝ)
    (hb : ((33709 / 10 : ℝ) < a 0 ∧ a 0 < 3371) ∧ ((23836 / 10 : ℝ) < a 1 ∧ a 1 < 23837 / 10) ∧
      ((168545 / 100 : ℝ) < a 2 ∧ a 2 < 16855 / 10) ∧
      ((11918 / 10 : ℝ) < a 3 ∧ a 3 < 119185 / 100) ∧
      ((842725 / 1000 : ℝ) < a 4 ∧ a 4 < 84275 / 100) ∧
      ((5959 / 10 : ℝ) < a 5 ∧ a 5 < 595925 / 1000) ∧
      ((4213625 / 10000 : ℝ) < a 6 ∧ a 6 < 421375 / 1000) ∧
      ((29795 / 100 : ℝ) < a 7 ∧ a 7 < 2979625 / 10000))
    (i j : Nat) (hij : i < j) (hj : j ≤ 6)
    (hi : a i + a (i + 1) - 2 < x) (hj1 : x < a j + a (j + 1) + 2) : False := by
  obtain ⟨⟨a0, b0⟩, ⟨a1, b1⟩, ⟨a2, b2⟩, ⟨a3, b3⟩, ⟨a4, b4⟩, ⟨a5, b5⟩, ⟨a6, b6⟩, ⟨a7, b7⟩⟩ := hb
  have hmono : ∀ k, k ≤ 6 → a (k + 1) + 4 < a k := by
    intro k hk
    interval_cases k <;> simp only [Nat.reduceAdd] <;> linarith
  have hstep : ∀ k, k ≤ 5 → a (k + 1) + a (k + 1 + 1) + 2 < a k + a (k + 1) - 2 := by
    intro k hk
    have := hmono (k + 1) (by omega)
    have := hmono k (by omega)
    interval_cases k <;> simp only [Nat.reduceAdd] at * <;> linarith
  have hchain : ∀ d k, k + 1 + d ≤ 6 →
      a (k + 1 + d) + a (k + 1 + d + 1) + 2 < a k + a (k + 1) - 2 := by
    intro d
    induction d with
    | zero =>
      intro k hk
      exact hstep k (by omega)
    | succ d ih =>
      intro k hk
      have h1 := ih k (by omega)
      have h2 := hstep (k + 1 + d) (by omega)
      have e : k + 1 + (d + 1) = k + 1 + d + 1 := by omega
      rw [e]
      linarith
  obtain ⟨d, rfl⟩ : ∃ d, j = i + 1 + d := ⟨j - i - 1, by omega⟩
  have := hchain d i hj
  linarith

theorem iso_tests_exclusive (w h : ℝ) (i j : Nat) (hi : i ≤ 6) (hj : j ≤ 6)
    (hti : isoTestAt Real.sqrt i w h) (htj : isoTestAt Real.sqrt j w h) : i = j := by
  obtain ⟨t1, t2⟩ := isoTestAt_sum Real.sqrt i w h hti
  obtain ⟨u1, u2⟩ := isoTestAt_sum Real.sqrt j w h htj
  rcases Nat.lt_trichotomy i j with hlt | heq | hgt
  · exact (sums_separated (fun k => (isoRef Real.sqrt k).1) (w + h) isoRef_bounds i j hlt hj
      t1 u2).elim
  · exact heq
  · exact (sums_separated (fun k => (isoRef Real.sqrt k).1) (w + h) isoRef_bounds j i hgt hi
      u1 t2).elim

/-- C10: for all real `w` and `h`, at most one of the eight paper-size tests of the
page-size loop succeeds, the reference lengths being `sqrt(sqrt 2) * 7200 / 2.54`
for the long side of A0, long side / `sqrt 2` for each short side, and the
previous short side for each next long side: the letter test excludes the seven
A-series tests, and two A-series tests that both succeed are the same test.
So what is printed is `(letter)` exactly when the letter test succeeds and
`(A<i>)` exactly when test `i` succeeds. -/
theorem paper_tests_exclusive (w h : ℝ) :
    (letterTest w h → ∀ i, i ≤ 6 → ¬ isoTestAt Real.sqrt i w h) ∧
    (∀ i j, i ≤ 6 → j ≤ 6 → isoTestAt Real.sqrt i w h → isoTestAt Real.sqrt j w h → i = j) ∧
    (sizeAnnot Real.sqrt w h = [Out.printf " (letter)" []] ↔ letterTest w h) ∧
    (∀ i : Nat, i ≤ 6 →
      (sizeAnnot Real.sqrt w h = [Out.printf " (A%d)" [Arg.d (i : Int)]] ↔
        isoTestAt Real.sqrt i w h)) ∧
    (isoRef Real.sqrt 0).1 = Real.sqrt (Real.sqrt 2) * 7200 / (254 / 100) ∧
    (∀ i, (isoRef Real.sqrt i).2 = (isoRef Real.sqrt i).1 / Real.sqrt 2) ∧
    (∀ i, (isoRef Real.sqrt (i + 1)).1 = (isoRef Real.sqrt i).2) := by
  refine ⟨fun hl i hi => letter_excludes_iso w h hl i hi,
    fun i j hi hj hti htj => iso_tests_exclusive w h i j hi hj hti htj,
    sizeAnnot_letter_iff Real.sqrt w h, ?_, rfl, isoRef_snd Real.sqrt,
    isoRef_fst_succ Real.sqrt⟩
  intro i hi
  rw [sizeAnnot_iso_iff]
  constructor
  · rintro ⟨_, _, ht, _⟩
    exact ht
  · intro ht
    refine ⟨fun hl => letter_excludes_iso w h hl i hi ht, hi, ht, ?_⟩
    intro m hm htm
    have := iso_tests_exclusive w h m i (by omega) hi htm ht
    omega

end Theorems

end PdfInfo
